import Mathlib

/-!
Verification development for the JustDAO-UI governance reconciliation layer.

The definitions below are a shallow embedding of the source files:
- `src/useVoting.js` (vote tally reconstruction, vote casting, read-path queries)
- `src/VoteTab.jsx` (optimistic vote submission, display percentages)
- `src/unnamed/part_002` (proposal-count binary search, governance metrics)

Remote-ledger interactions (contract calls, event-log queries) are modelled as
environment records whose fields carry the query results; a query that throws
in JavaScript is modelled as `Except.error ()`.  JavaScript numbers that hold
vote weights and identifiers are modelled as `Nat`/`Int` (the source converts
BigNumbers with `toNumber()`/`Number(...)`; overflow of the 2^53 float window
is outside the scope of the claims).  Percentage values are modelled in exact
rational arithmetic `ℚ`; a JavaScript object field that is left `undefined`
by an early return is modelled as `Option.none`.
-/

namespace JustDAO

/-- ASCII lowercase of one character, the fragment of JavaScript
`String.prototype.toLowerCase` relevant to hexadecimal addresses. -/
def lowerChar (c : Char) : Char :=
  if 'A' ≤ c ∧ c ≤ 'Z' then Char.ofNat (c.toNat + 32) else c

/-- Lowercase a string character by character (addresses are ASCII hex, for
which this coincides with JavaScript `toLowerCase`). -/
def lowerStr (s : String) : String := ⟨s.data.map lowerChar⟩

/-- One decoded `VoteCast(uint256 proposalId, address voter, uint8 support,
uint256 votingPower)` event, after the per-log parsing step of
`getProposalVoteTotals` (src/useVoting.js lines 97-114).  The proposal id is
fixed by the log filter and therefore omitted. -/
structure VoteCastEvent where
  voter : String
  support : Nat
  votingPower : Nat
deriving DecidableEq, Repr

/-- Insertion into the JavaScript `Set` of voters: insertion order is kept,
duplicates are dropped (src/useVoting.js line 116, `voters.add(voter)`). -/
def addVoter (voters : List String) (v : String) : List String :=
  if v ∈ voters then voters else voters ++ [v]

/-- Accumulator of the log-processing loop of `getProposalVoteTotals`:
three weighted buckets plus the distinct-voter set. -/
structure LogAcc where
  yesVotes : Nat
  noVotes : Nat
  abstainVotes : Nat
  voters : List String
deriving DecidableEq, Repr

/-- One iteration of the log loop (src/useVoting.js lines 97-124): lowercase
the voter, insert into the voter set, and add the weight to the bucket chosen
by `support` (0 = against, 1 = for, 2 = abstain; any other value adds no
weight but still records the voter). -/
def processVoteLog (acc : LogAcc) (ev : VoteCastEvent) : LogAcc :=
  let voter := lowerStr ev.voter
  let voters := addVoter acc.voters voter
  if ev.support = 0 then { acc with noVotes := acc.noVotes + ev.votingPower, voters := voters }
  else if ev.support = 1 then { acc with yesVotes := acc.yesVotes + ev.votingPower, voters := voters }
  else if ev.support = 2 then { acc with abstainVotes := acc.abstainVotes + ev.votingPower, voters := voters }
  else { acc with voters := voters }

/-- The full log loop of `getProposalVoteTotals` (src/useVoting.js lines
94-124), starting from zero buckets and an empty voter set. -/
def processVoteLogs (logs : List VoteCastEvent) : LogAcc :=
  logs.foldl processVoteLog ⟨0, 0, 0, []⟩

/-- The account-specific fold-in step of `getProposalVoteTotals`
(src/useVoting.js lines 126-162): when an account is connected, query its
authoritative vote weight `proposalVoterInfo`; if it is non-zero, look up the
latest of its own `VoteCast` events for the support choice, and only when the
lowercased account is NOT already in the log-derived voter set, add the voter
and fold the authoritative weight into the bucket of that support choice.
Any query error in this step is caught and leaves the accumulator unchanged. -/
def applyAccountVote (acc : LogAcc) (account : Option String)
    (voterInfo : Except Unit Nat) (userEvents : Except Unit (List VoteCastEvent)) : LogAcc :=
  match account with
  | none => acc
  | some acct =>
    match voterInfo with
    | .error _ => acc
    | .ok w =>
      if w = 0 then acc
      else
        match userEvents with
        | .error _ => acc
        | .ok evs =>
          match evs.getLast? with
          | none => acc
          | some latest =>
            if lowerStr acct ∈ acc.voters then acc
            else
              let voters := acc.voters ++ [lowerStr acct]
              if latest.support = 0 then { acc with noVotes := acc.noVotes + w, voters := voters }
              else if latest.support = 1 then { acc with yesVotes := acc.yesVotes + w, voters := voters }
              else if latest.support = 2 then { acc with abstainVotes := acc.abstainVotes + w, voters := voters }
              else { acc with voters := voters }

/-- Result shape of `getProposalVoteTotals`.  The three percentage fields are
`Option ℚ` because the two early returns of the source (provider unavailable,
state query failed; src/useVoting.js lines 57 and 70) return an object without
percentage fields, i.e. they are `undefined` there — modelled as `none`. -/
structure VoteTotals where
  yesVotes : Nat
  noVotes : Nat
  abstainVotes : Nat
  totalVotes : Nat
  totalVoters : Nat
  yesPercentage : Option ℚ
  noPercentage : Option ℚ
  abstainPercentage : Option ℚ
deriving DecidableEq, Repr

/-- The five-field zero tally returned by the early exits of
`getProposalVoteTotals` (src/useVoting.js lines 57 and 70): the percentage
fields are absent (`undefined`). -/
def zeroTallyNoPct : VoteTotals := ⟨0, 0, 0, 0, 0, none, none, none⟩

/-- The eight-field zero tally returned by the top-level catch of
`getProposalVoteTotals` (src/useVoting.js lines 194-203). -/
def zeroTallyFull : VoteTotals := ⟨0, 0, 0, 0, 0, some 0, some 0, some 0⟩

/-- Environment of one `getProposalVoteTotals` call: the results the ledger
and provider would deliver for the fixed proposal id and connected account. -/
structure TallyEnv where
  governanceAvailable : Bool
  getProposalState : Except Unit Nat
  getLogs : Except Unit (List VoteCastEvent)
  account : Option String
  proposalVoterInfo : Except Unit Nat
  userVoteEvents : Except Unit (List VoteCastEvent)

/-- Shallow embedding of `getProposalVoteTotals` (src/useVoting.js lines
53-205).  Control flow of the source: missing contract/provider or a failed
`getProposalState` returns the five-field zero tally; a failure of the log
query is caught by the top-level handler which returns the eight-field zero
tally; otherwise the logs are folded, the connected account is folded in, and
percentages are computed (zero when the total weight is zero). -/
def getProposalVoteTotals (env : TallyEnv) : VoteTotals :=
  if ¬ env.governanceAvailable then zeroTallyNoPct
  else
    match env.getProposalState with
    | .error _ => zeroTallyNoPct
    | .ok _ =>
      match env.getLogs with
      | .error _ => zeroTallyFull
      | .ok logs =>
        let acc := applyAccountVote (processVoteLogs logs) env.account
          env.proposalVoterInfo env.userVoteEvents
        let totalVotes := acc.yesVotes + acc.noVotes + acc.abstainVotes
        { yesVotes := acc.yesVotes
          noVotes := acc.noVotes
          abstainVotes := acc.abstainVotes
          totalVotes := totalVotes
          totalVoters := acc.voters.length
          yesPercentage := some (if 0 < totalVotes then (acc.yesVotes : ℚ) / totalVotes * 100 else 0)
          noPercentage := some (if 0 < totalVotes then (acc.noVotes : ℚ) / totalVotes * 100 else 0)
          abstainPercentage := some (if 0 < totalVotes then (acc.abstainVotes : ℚ) / totalVotes * 100 else 0) }

/-- Result shape of `calculateVotePercentages` in src/VoteTab.jsx. -/
structure DisplayTally where
  yesVotes : ℚ
  noVotes : ℚ
  abstainVotes : ℚ
  totalVotes : ℚ
  yesPercentage : ℚ
  noPercentage : ℚ
  abstainPercentage : ℚ
deriving DecidableEq, Repr

/-- Shallow embedding of `calculateVotePercentages` (src/VoteTab.jsx lines
121-148).  The inputs model `parseFloat(proposal.xxxVotes) || 0`: a field that
fails to parse (`NaN`) is `none` and coerces to `0`.  Percentages are `0`
when the total is not positive, otherwise exact rational shares of 100. -/
def calculateVotePercentages (rawYes rawNo rawAbstain : Option ℚ) : DisplayTally :=
  let yesVotes := rawYes.getD 0
  let noVotes := rawNo.getD 0
  let abstainVotes := rawAbstain.getD 0
  let totalVotes := yesVotes + noVotes + abstainVotes
  { yesVotes := yesVotes
    noVotes := noVotes
    abstainVotes := abstainVotes
    totalVotes := totalVotes
    yesPercentage := if 0 < totalVotes then yesVotes / totalVotes * 100 else 0
    noPercentage := if 0 < totalVotes then noVotes / totalVotes * 100 else 0
    abstainPercentage := if 0 < totalVotes then abstainVotes / totalVotes * 100 else 0 }

/-! ### Proposal-count discovery (src/unnamed/part_002, `fetchProposalStats`) -/

/-- The binary-search loop of `fetchProposalStats` (src/unnamed/part_002 lines
296-314).  `ex` is the existence probe: `true` models a `getProposalState`
call that succeeds, `false` one that reverts.  `low` and `high` are the
JavaScript loop variables (plain numbers, so `high` may become -1); the
midpoint is `Math.floor((low + high) / 2)`, which is floor division, i.e.
`Int` division here.  The loop runs while `low ≤ high`; the fuel argument is
a structural bound on the iteration count that strictly exceeds the interval
size, so it never runs out on the call below. -/
def binSearchAux (ex : Int → Bool) : Nat → Int → Int → Int
  | 0, _, high => high
  | fuel + 1, low, high =>
    if low ≤ high then
      let mid := (low + high) / 2
      if ex mid then binSearchAux ex fuel (mid + 1) high
      else binSearchAux ex fuel low (mid - 1)
    else high

/-- The binary-search count of `fetchProposalStats`: search over [0, 1000]
(the configured upper bound, src/unnamed/part_002 line 299) and return
`high + 1` because identifiers are zero-indexed (line 314). -/
def proposalCountBinarySearch (ex : Int → Bool) : Int :=
  binSearchAux ex 1002 0 1000 + 1

/-- The total-count logic of `fetchProposalStats` (src/unnamed/part_002 lines
284-316): use the direct `getProposalCount` accessor when it yields a
non-zero count (a failed or absent accessor leaves the count at 0), and fall
back to the binary search when the count is still 0. -/
def fetchProposalStatsTotal (directCount : Option Nat) (ex : Int → Bool) : Int :=
  let direct := directCount.getD 0
  if direct = 0 then proposalCountBinarySearch ex else direct

/-- Existence probe of a contiguous zero-indexed identifier space
{0, ..., n-1}: the state query succeeds exactly on those identifiers. -/
def contiguousIds (n : Nat) : Int → Bool :=
  fun i => decide (0 ≤ i ∧ i < (n : Int))

/-- A linear existence scan over the same identifier space [0, 1000]: probe
every identifier once and count the ones that exist.  This is the reference
the binary search is compared against. -/
def linearScanCount (ex : Int → Bool) : Nat :=
  ((List.range 1001).filter (fun i : Nat => ex (i : Int))).length

/-! ### Vote casting (src/useVoting.js, `castVote` and `hasVoted`) -/

/-- Vote-type constants from utils/constants (values pinned by the source
error message in src/useVoting.js line 224: 0 Against, 1 For, 2 Abstain). -/
def VOTE_AGAINST : Int := 0

/-- See `VOTE_AGAINST`. -/
def VOTE_FOR : Int := 1

/-- See `VOTE_AGAINST`. -/
def VOTE_ABSTAIN : Int := 2

/-- Errors thrown by `castVote`, one constructor per `throw` site of the
source (src/useVoting.js lines 209-254); `stateQueryFailed` and
`powerQueryFailed` are upstream query errors rethrown by the outer catch,
`txFailed` carries the ledger rejection reason. -/
inductive CastVoteError where
  | notConnected
  | governanceNotInitialized
  | invalidVoteType
  | stateQueryFailed
  | proposalNotActive
  | alreadyVoted
  | powerQueryFailed
  | noVotingPower
  | txFailed (reason : String)
deriving DecidableEq, Repr

/-- Environment of one `castVote` call: connection flags and the results the
ledger would deliver for the fixed proposal id and account. -/
structure CastVoteEnv where
  isConnected : Bool
  contractsReady : Bool
  governanceAvailable : Bool
  account : Option String
  proposalVoterInfo : Except Unit Nat
  proposalState : Except Unit Nat
  snapshotId : Nat
  effectiveVotingPower : Except Unit Nat
  txSubmit : Except String String

/-- Shallow embedding of `hasVoted` (src/useVoting.js lines 306-318): false
without a connected session or governance contract, false when the
authoritative `proposalVoterInfo` query errors (caught), otherwise true
exactly when the recorded weight is non-zero. -/
def hasVotedQuery (isConnected contractsReady : Bool) (account : Option String)
    (governanceAvailable : Bool) (voterInfo : Except Unit Nat) : Bool :=
  if ¬ (isConnected ∧ contractsReady ∧ account.isSome) then false
  else if ¬ governanceAvailable then false
  else
    match voterInfo with
    | .error _ => false
    | .ok w => w ≠ 0

/-- Decidable equality for `Except`, needed to evaluate concrete call
outcomes. -/
instance exceptDecEq {ε α : Type} [DecidableEq ε] [DecidableEq α] :
    DecidableEq (Except ε α) := fun x y =>
  match x, y with
  | .error a, .error b =>
    if h : a = b then isTrue (h ▸ rfl) else isFalse (by simp [h])
  | .error _, .ok _ => isFalse (by simp)
  | .ok _, .error _ => isFalse (by simp)
  | .ok a, .ok b =>
    if h : a = b then isTrue (h ▸ rfl) else isFalse (by simp [h])

/-- Outcome of `castVote`: the result surfaced to the caller (ok payload is
the raw voting power, the vote type and the transaction hash; display
formatting through `formatEther` is elided) together with a flag recording
whether a vote transaction was submitted to the ledger
(`contracts.governance.castVote`, src/useVoting.js line 252). -/
structure CastVoteOutcome where
  result : Except CastVoteError (Nat × Int × String)
  ledgerWriteAttempted : Bool
deriving DecidableEq, Repr

/-- Shallow embedding of `castVote` (src/useVoting.js lines 208-303), in the
order of the source: connection guards, vote-type validation, proposal-state
check (0 = Active), already-voted check via `hasVotedQuery`, voting-power
check at the resolved snapshot, then — and only then — the ledger write.
Snapshot resolution (`getProposalSnapshotId`) never throws in the source
(every query inside it is caught with fallbacks), so it is a plain `Nat`
field of the environment, unused by the validations. -/
def castVote (env : CastVoteEnv) (voteType : Int) : CastVoteOutcome :=
  if ¬ (env.isConnected ∧ env.contractsReady) then ⟨.error .notConnected, false⟩
  else if ¬ env.governanceAvailable then ⟨.error .governanceNotInitialized, false⟩
  else if ¬ (voteType = VOTE_AGAINST ∨ voteType = VOTE_FOR ∨ voteType = VOTE_ABSTAIN) then
    ⟨.error .invalidVoteType, false⟩
  else
    match env.proposalState with
    | .error _ => ⟨.error .stateQueryFailed, false⟩
    | .ok s =>
      if s ≠ 0 then ⟨.error .proposalNotActive, false⟩
      else if hasVotedQuery env.isConnected env.contractsReady env.account
          env.governanceAvailable env.proposalVoterInfo then
        ⟨.error .alreadyVoted, false⟩
      else
        match env.effectiveVotingPower with
        | .error _ => ⟨.error .powerQueryFailed, false⟩
        | .ok p =>
          if p = 0 then ⟨.error .noVotingPower, false⟩
          else
            match env.txSubmit with
            | .error r => ⟨.error (.txFailed r), true⟩
            | .ok h => ⟨.ok (p, voteType, h), true⟩

/-! ### Read-path queries (src/useVoting.js, `getVotingPower` and
`getVoteDetails`) -/

/-- Environment of one `getVotingPower` call. -/
structure VotingPowerEnv where
  isConnected : Bool
  contractsReady : Bool
  account : Option String
  tokenAvailable : Bool
  currentSnapshotId : Except Unit Nat
  effectiveVotingPower : Except Unit Nat

/-- Shallow embedding of `getVotingPower` (src/useVoting.js lines 321-344).
The string "0" is returned without a session or token contract and on any
caught query error; otherwise the effective voting power is formatted for
display by the injected `fmt` (the ethers `formatEther` utility).  A passed
snapshot id of 0 is falsy in JavaScript and triggers the current-snapshot
fallback, exactly as an absent argument does. -/
def getVotingPower (env : VotingPowerEnv) (fmt : Nat → String)
    (snapshotId : Option Nat) : String :=
  if ¬ (env.isConnected ∧ env.contractsReady ∧ env.account.isSome) then "0"
  else if ¬ env.tokenAvailable then "0"
  else
    let resolved : Except Unit Nat :=
      match snapshotId with
      | some s => if s = 0 then env.currentSnapshotId else .ok s
      | none => env.currentSnapshotId
    match resolved with
    | .error _ => "0"
    | .ok _ =>
      match env.effectiveVotingPower with
      | .error _ => "0"
      | .ok p => fmt p

/-- Result shape of `getVoteDetails` (src/useVoting.js lines 347-387). -/
structure VoteDetails where
  hasVoted : Bool
  votingPower : String
  voteType : Option Nat
deriving DecidableEq, Repr

/-- Environment of one `getVoteDetails` call. -/
structure VoteDetailsEnv where
  isConnected : Bool
  contractsReady : Bool
  account : Option String
  proposalVoterInfo : Except Unit Nat
  userVoteEvents : Except Unit (List VoteCastEvent)

/-- Shallow embedding of `getVoteDetails` (src/useVoting.js lines 347-387):
the has-not-voted record is returned without a session, on a caught
`proposalVoterInfo` error, and when the recorded weight is zero; otherwise
the vote type is taken from the latest own `VoteCast` event (none when that
query errors — caught — or returns no events). -/
def getVoteDetails (env : VoteDetailsEnv) (fmt : Nat → String) : VoteDetails :=
  if ¬ (env.isConnected ∧ env.contractsReady ∧ env.account.isSome) then ⟨false, "0", none⟩
  else
    match env.proposalVoterInfo with
    | .error _ => ⟨false, "0", none⟩
    | .ok w =>
      if w = 0 then ⟨false, "0", none⟩
      else
        let vt : Option Nat :=
          match env.userVoteEvents with
          | .error _ => none
          | .ok evs =>
            match evs.getLast? with
            | none => none
            | some latest => some latest.support
        ⟨true, fmt w, vt⟩

/-! ### Optimistic vote submission (src/VoteTab.jsx, `submitVote`) -/

/-- Observable steps of one `submitVote` run: local state writes
(`setVotedProposals`), the `castVote` call that reaches for the ledger, and
the error alert. -/
inductive UIEvent where
  | setState (m : List (Nat × Nat))
  | castVoteCall (pid support : Nat)
  | alertShown
deriving DecidableEq, Repr

/-- JavaScript object spread-and-assign `{...voted, [pid]: support}` on the
`votedProposals` map (keyed by proposal id, insertion order kept). -/
def insertVote (voted : List (Nat × Nat)) (pid support : Nat) : List (Nat × Nat) :=
  if voted.any (fun e => e.1 = pid) then
    voted.map (fun e => if e.1 = pid then (pid, support) else e)
  else voted ++ [(pid, support)]

/-- JavaScript `delete map[pid]` on a fresh copy of the map. -/
def eraseVote (voted : List (Nat × Nat)) (pid : Nat) : List (Nat × Nat) :=
  voted.filter (fun e => ¬ e.1 = pid)

/-- Lookup in the `votedProposals` map; `none` models `undefined`, i.e. the
locally observed state Unvoted. -/
def lookupVote (voted : List (Nat × Nat)) (pid : Nat) : Option Nat :=
  (voted.find? (fun e => e.1 = pid)).map (fun e => e.2)

/-- Shallow embedding of `submitVote` (src/VoteTab.jsx lines 72-90) as the
sequence of observable steps plus the final local map.  The source first
writes the speculative entry (lines 75-77), then awaits `castVote`; on
failure the catch shows an alert and writes a copy of the captured original
map with the proposal id deleted (lines 86-88). -/
def submitVote (voted : List (Nat × Nat)) (pid support : Nat)
    (castResult : Except String Unit) : List UIEvent × List (Nat × Nat) :=
  let optimistic := insertVote voted pid support
  match castResult with
  | .ok _ => ([.setState optimistic, .castVoteCall pid support], optimistic)
  | .error _ =>
    ([.setState optimistic, .castVoteCall pid support, .alertShown,
      .setState (eraseVote voted pid)], eraseVote voted pid)

/-! ### Governance metrics (src/unnamed/part_002, `fetchGovernanceMetrics`) -/

/-- Fields of `getProposalAnalytics` consumed by the source; `none` models an
absent field (the source then parses the literal string "0" for the turnout,
and skips the falsy success rate). -/
structure ProposalAnalytics where
  avgVotingTurnout : Option Int
  generalSuccessRate : Option Int
deriving Repr

/-- Field of `getTokenDistributionAnalytics` consumed by the source. -/
structure TokenAnalytics where
  percentageDelegated : Option Int
deriving Repr

/-- Fields of `getSnapshotMetrics` consumed by the source: a named
`percentageDelegated` field, or the fifth array element as fallback. -/
structure SnapshotMetrics where
  percentageDelegated : Option Int
  arrayFifth : Option Int
deriving Repr

/-- Environment of one `fetchGovernanceMetrics` call. -/
structure MetricsEnv where
  analyticsHelperAvailable : Bool
  proposalAnalytics : Except Unit (Option ProposalAnalytics)
  tokenAnalytics : Except Unit (Option TokenAnalytics)
  currentSnapshotId : Except Unit Nat
  snapshotMetrics : Except Unit (Option SnapshotMetrics)

/-- The plausibility clamp of `fetchGovernanceMetrics` (src/unnamed/part_002
lines 421-434): a rate at most 1% or above 100% is replaced by the seeded
fallback.  The source's final `isNaN` guard (lines 437-441) is vacuous in
exact rational arithmetic. -/
def clampRate (fallback x : ℚ) : ℚ :=
  if x ≤ 1 / 100 ∨ 1 < x then fallback else x

/-- The strategy phase of `fetchGovernanceMetrics` (src/unnamed/part_002
lines 342-418) before clamping: start from the seeded defaults 0.27 / 0.38 /
0.73; when the analytics helper is available try proposal analytics (turnout
in basis points, success rate in percent) and token analytics (delegation in
basis points) under one catch — an error after the proposal analytics were
applied keeps their values; when the delegation rate is still exactly 0, try
the snapshot-metrics path (own catches, each failure keeps the value). -/
def rawGovernanceMetrics (env : MetricsEnv) : ℚ × ℚ × ℚ :=
  let p0 : ℚ := 27 / 100
  let d0 : ℚ := 38 / 100
  let s0 : ℚ := 73 / 100
  let afterAnalytics :=
    if env.analyticsHelperAvailable then
      match env.proposalAnalytics with
      | .error _ => (p0, d0, s0)
      | .ok pa =>
        let ps :=
          match pa with
          | none => (p0, s0)
          | some a =>
            let p := ((a.avgVotingTurnout.getD 0 : Int) : ℚ) / 10000
            let s :=
              match a.generalSuccessRate with
              | some g => (g : ℚ) / 100
              | none => s0
            (p, s)
        match env.tokenAnalytics with
        | .error _ => (ps.1, d0, ps.2)
        | .ok none => (ps.1, d0, ps.2)
        | .ok (some t) =>
          match t.percentageDelegated with
          | some pd => (ps.1, (pd : ℚ) / 10000, ps.2)
          | none => (ps.1, d0, ps.2)
    else (p0, d0, s0)
  let d2 :=
    if afterAnalytics.2.1 = 0 then
      match env.currentSnapshotId with
      | .error _ => afterAnalytics.2.1
      | .ok sid =>
        if sid ≠ 0 then
          match env.snapshotMetrics with
          | .error _ => afterAnalytics.2.1
          | .ok none => afterAnalytics.2.1
          | .ok (some m) =>
            match m.percentageDelegated with
            | some pd => (pd : ℚ) / 10000
            | none =>
              match m.arrayFifth with
              | some pd => (pd : ℚ) / 10000
              | none => afterAnalytics.2.1
        else afterAnalytics.2.1
    else afterAnalytics.2.1
  (afterAnalytics.1, d2, afterAnalytics.2.2)

/-- Shallow embedding of `fetchGovernanceMetrics` (src/unnamed/part_002 lines
339-450): the strategy phase followed by the plausibility clamps with the
seeded defaults 0.27, 0.38 and 0.73. -/
def fetchGovernanceMetrics (env : MetricsEnv) : ℚ × ℚ × ℚ :=
  let r := rawGovernanceMetrics env
  (clampRate (27 / 100) r.1, clampRate (38 / 100) r.2.1, clampRate (73 / 100) r.2.2)

/-! ### Helper lemmas -/

/-- Invariant of the binary-search loop over a contiguous zero-indexed
identifier space: with `low ≤ n ≤ high + 1` the loop ends with the final
`high` equal to `n - 1`. -/
lemma binSearchAux_contiguous (n : Nat) :
    ∀ (fuel : Nat) (low high : Int), 0 ≤ low → low ≤ (n : Int) → (n : Int) ≤ high + 1 →
    (high + 1 - low).toNat < fuel →
    binSearchAux (contiguousIds n) fuel low high = (n : Int) - 1 := by
  intro fuel
  induction fuel with
  | zero => intro low high _ _ _ hf; omega
  | succ f ih =>
    intro low high h0 h1 h2 hf
    unfold binSearchAux
    by_cases hlh : low ≤ high
    · simp only [hlh, if_true]
      by_cases hex : contiguousIds n ((low + high) / 2) = true
      · have hlt : (low + high) / 2 < (n : Int) := by
          have := of_decide_eq_true hex
          exact this.2
        simp only [hex, if_true]
        exact ih ((low + high) / 2 + 1) high (by omega) (by omega) h2 (by omega)
      · have hnot : ¬ (0 ≤ (low + high) / 2 ∧ (low + high) / 2 < (n : Int)) := by
          simpa [contiguousIds] using hex
        have hge : (n : Int) ≤ (low + high) / 2 := by omega
        simp only [hex, if_false]
        exact ih low ((low + high) / 2 - 1) h0 h1 (by omega) (by omega)
    · simp only [hlh, if_false]
      omega

/-- A linear existence scan over [0, m) of a contiguous identifier space
{0, ..., n-1} counts exactly n identifiers when n ≤ m. -/
lemma filter_range_contiguous (n : Nat) :
    ∀ m : Nat, n ≤ m →
    ((List.range m).filter (fun i : Nat => contiguousIds n (i : Int))).length = n := by
  intro m
  induction m with
  | zero => intro h; interval_cases n; simp
  | succ k ih =>
    intro h
    rcases Nat.lt_or_ge n (k + 1) with hlt | hge
    · have hnk : n ≤ k := by omega
      rw [List.range_succ, List.filter_append]
      have : contiguousIds n ((k : Nat) : Int) = false := by
        simp [contiguousIds]
        omega
      simp [this, ih hnk]
    · have hnk : n = k + 1 := by omega
      subst hnk
      have : ∀ a ∈ List.range (k + 1), (fun i : Nat => contiguousIds (k + 1) (i : Int)) a = true := by
        intro a ha
        simp [List.mem_range] at ha
        simp [contiguousIds]
        omega
      rw [List.filter_eq_self.mpr this, List.length_range]

/-- The log loop updates the voter set by inserting the lowercased voter,
whatever the support value is. -/
lemma processVoteLog_voters (acc : LogAcc) (ev : VoteCastEvent) :
    (processVoteLog acc ev).voters = addVoter acc.voters (lowerStr ev.voter) := by
  unfold processVoteLog
  split_ifs <;> rfl

/-- Set-semantics of `addVoter`. -/
lemma addVoter_toFinset (vs : List String) (v : String) :
    (addVoter vs v).toFinset = insert v vs.toFinset := by
  unfold addVoter
  split_ifs with h
  · simp [Finset.insert_eq_self.mpr (List.mem_toFinset.mpr h)]
  · simp [List.toFinset_append, Finset.union_comm, Finset.insert_eq]

/-- `addVoter` keeps the voter list duplicate-free. -/
lemma addVoter_nodup (vs : List String) (v : String) (h : vs.Nodup) :
    (addVoter vs v).Nodup := by
  unfold addVoter
  split_ifs with hm
  · exact h
  · simp [List.nodup_append, h, hm]

/-- The voter set accumulated by the log loop is duplicate-free and is, as a
set, the initial set united with the lowercased voters of the logs. -/
lemma foldl_voters_spec (logs : List VoteCastEvent) :
    ∀ acc : LogAcc, acc.voters.Nodup →
      ((logs.foldl processVoteLog acc).voters.Nodup ∧
       (logs.foldl processVoteLog acc).voters.toFinset =
         acc.voters.toFinset ∪ (logs.map (fun e => lowerStr e.voter)).toFinset) := by
  induction logs with
  | nil => intro acc h; simp [h]
  | cons ev rest ih =>
    intro acc h
    simp only [List.foldl_cons, List.map_cons, List.toFinset_cons]
    have h1 : (processVoteLog acc ev).voters.Nodup := by
      rw [processVoteLog_voters]; exact addVoter_nodup _ _ h
    obtain ⟨hn, hf⟩ := ih (processVoteLog acc ev) h1
    refine ⟨hn, ?_⟩
    rw [hf, processVoteLog_voters, addVoter_toFinset]
    ext x
    simp

/-- The distinct-voter count of the log loop equals the number of distinct
lowercased voter addresses in the logs. -/
lemma processVoteLogs_totalVoters (logs : List VoteCastEvent) :
    (processVoteLogs logs).voters.length = (logs.map (fun e => lowerStr e.voter)).toFinset.card := by
  obtain ⟨hn, hf⟩ := foldl_voters_spec logs ⟨0, 0, 0, []⟩ (by simp)
  unfold processVoteLogs
  rw [← List.toFinset_card_of_nodup hn, hf]
  simp

/-- When the connected account is already in the log-derived voter set, the
account-specific fold-in step is the identity: the log-derived contribution
stands and the authoritative direct query is ignored. -/
lemma applyAccountVote_mem (acc : LogAcc) (acct : String) (vi : Except Unit Nat)
    (ue : Except Unit (List VoteCastEvent)) (h : lowerStr acct ∈ acc.voters) :
    applyAccountVote acc (some acct) vi ue = acc := by
  unfold applyAccountVote
  cases vi with
  | error e => rfl
  | ok w =>
    by_cases hw : w = 0
    · simp [hw]
    · simp only [hw, if_false]
      cases ue with
      | error e => rfl
      | ok evs =>
        cases hle : evs.getLast? with
        | none => simp [hle]
        | some latest => simp [hle, h]

/-- Lookup after the optimistic insert: the speculative record is visible. -/
lemma lookupVote_insert (pid support : Nat) :
    ∀ voted, lookupVote (insertVote voted pid support) pid = some support := by
  intro voted
  induction voted with
  | nil => simp [insertVote, lookupVote]
  | cons hd tl ih =>
    by_cases hhd : hd.1 = pid
    · simp [insertVote, lookupVote, List.any_cons, hhd]
    · by_cases hany : tl.any (fun e => decide (e.1 = pid))
      · have ih2 : lookupVote (tl.map (fun e => if e.1 = pid then (pid, support) else e)) pid
            = some support := by
          simpa [insertVote, hany] using ih
        simpa [insertVote, lookupVote, List.any_cons, hhd, hany] using ih2
      · have ih2 : lookupVote (tl ++ [(pid, support)]) pid = some support := by
          simpa [insertVote, hany] using ih
        simpa [insertVote, lookupVote, List.any_cons, hhd, hany] using ih2

/-- Lookup after the rollback delete: the record for the proposal is gone. -/
lemma lookupVote_erase (voted : List (Nat × Nat)) (pid : Nat) :
    lookupVote (eraseVote voted pid) pid = none := by
  have h : List.find? (fun e => decide (e.1 = pid)) (eraseVote voted pid) = none := by
    rw [List.find?_eq_none]
    intro x hx
    simp only [eraseVote, List.mem_filter] at hx
    simpa using hx.2
  simp [lookupVote, h]

/-- The plausibility clamp keeps a plausible fallback in range. -/
lemma clampRate_bounds (fallback x : ℚ) (h1 : 1 / 100 < fallback) (h2 : fallback ≤ 1) :
    1 / 100 < clampRate fallback x ∧ clampRate fallback x ≤ 1 := by
  unfold clampRate
  split_ifs with h
  · exact ⟨h1, h2⟩
  · push_neg at h
    exact ⟨h.1, h.2⟩

/-- The plausibility clamp replaces an implausible value by the fallback. -/
lemma clampRate_replace (fallback x : ℚ) (h : x ≤ 1 / 100 ∨ 1 < x) :
    clampRate fallback x = fallback := by
  unfold clampRate
  exact if_pos h

/-! ### Claim C1 -/

/-- Concrete environment of the example scenario of the spec: vote-cast
events (A, For, 100), (B, Against, 50), (A, For, 100) for one proposal, no
connected account, proposal state query succeeding. -/
def exampleTallyEnv : TallyEnv :=
  ⟨true, .ok 1, .ok [⟨"0xA1", 1, 100⟩, ⟨"0xB2", 0, 50⟩, ⟨"0xA1", 1, 100⟩],
   none, .error (), .error ()⟩

/-- C1 counterexample: on the event sequence
[(A, For, 100), (B, Against, 50), (A, For, 100)] the reconstruction yields
yes = 200, not the yes = 100 the claim states: the duplicate event
contributes its weight again (only the distinct-voter count is
deduplicated). -/
theorem duplicate_vote_events_double_weight_cex :
    (getProposalVoteTotals exampleTallyEnv).yesVotes = 200
    ∧ ¬ (getProposalVoteTotals exampleTallyEnv).yesVotes = 100
    ∧ (getProposalVoteTotals exampleTallyEnv).noVotes = 50
    ∧ (getProposalVoteTotals exampleTallyEnv).abstainVotes = 0
    ∧ (getProposalVoteTotals exampleTallyEnv).totalVoters = 2 := by
  decide

/-- C1 (amended): reconstruction is a pure function of the fetched log set
(so reconstructing twice from the same logs trivially yields identical
tallies) and the distinct-voter count deduplicates by lowercased voter
address, but the weighted buckets accumulate once per event: a voter
appearing in multiple events contributes their weight each time; on the
example [(A, For, 100), (B, Against, 50), (A, For, 100)] the result is
{yes: 200, no: 50, abstain: 0, totalVoters: 2}. -/
theorem voteTally_dedup_voters_weight_per_event :
    (∀ logs : List VoteCastEvent,
      (processVoteLogs logs).voters.length
        = (logs.map (fun e => lowerStr e.voter)).toFinset.card)
    ∧ (getProposalVoteTotals exampleTallyEnv).yesVotes = 200
    ∧ (getProposalVoteTotals exampleTallyEnv).noVotes = 50
    ∧ (getProposalVoteTotals exampleTallyEnv).abstainVotes = 0
    ∧ (getProposalVoteTotals exampleTallyEnv).totalVoters = 2 :=
  ⟨processVoteLogs_totalVoters, by decide, by decide, by decide, by decide⟩

/-! ### Claim C2 -/

/-- C2: over any contiguous zero-indexed identifier space {0, ..., n-1} with
n at most the configured upper bound 1000, the binary-search proposal-count
discovery (also through the full `fetchProposalStats` path with no direct
count accessor) returns n, the same count as a linear existence scan over
the identifier space. -/
theorem proposalCount_binary_search_matches_linear_scan (n : Nat) (h : n ≤ 1000) :
    fetchProposalStatsTotal none (contiguousIds n) = (n : Int)
    ∧ proposalCountBinarySearch (contiguousIds n) = (n : Int)
    ∧ linearScanCount (contiguousIds n) = n := by
  have hb : proposalCountBinarySearch (contiguousIds n) = (n : Int) := by
    have := binSearchAux_contiguous n 1002 0 1000 (by omega)
      (by exact_mod_cast Nat.zero_le n) (by omega) (by omega)
    unfold proposalCountBinarySearch
    omega
  refine ⟨by simpa [fetchProposalStatsTotal] using hb, hb, ?_⟩
  unfold linearScanCount
  exact filter_range_contiguous n 1001 (by omega)

/-- C2 witness: the binary search returns 5 for the existing ids
{0, 1, 2, 3, 4} and 0 for an empty identifier space. -/
theorem proposalCount_binary_search_witness :
    proposalCountBinarySearch (contiguousIds 5) = 5
    ∧ fetchProposalStatsTotal none (contiguousIds 0) = 0 := by
  constructor
  · exact_mod_cast (proposalCount_binary_search_matches_linear_scan 5 (by norm_num)).2.1
  · exact_mod_cast (proposalCount_binary_search_matches_linear_scan 0 (by norm_num)).1

/-! ### Claim C3 -/

/-- Concrete environment in which the proposal-existence state query fails
(the proposal does not exist). -/
def stateErrEnv : TallyEnv :=
  ⟨true, .error (), .ok [⟨"0xaa", 1, 100⟩], none, .error (), .error ()⟩

/-- C3 counterexample: when the existence state query fails, the
reconstruction does not fail with a NotFound error — it catches the error
and returns the all-zero tally (the source has no failing path at all; the
result type of the embedding is accordingly error-free). -/
theorem state_query_failure_returns_tally_cex :
    getProposalVoteTotals stateErrEnv = zeroTallyNoPct := by
  decide

/-- C3 (amended): for every environment in which the existence state query
fails, the tally reconstruction returns the all-zero tally (with the
percentage fields absent) instead of raising NotFound. -/
theorem state_query_failure_yields_zero_tally (env : TallyEnv)
    (hg : env.governanceAvailable = true) (hs : env.getProposalState = .error ()) :
    getProposalVoteTotals env = zeroTallyNoPct := by
  unfold getProposalVoteTotals
  simp [hg, hs]

/-- Second concrete environment with a failing state query, this time with a
connected account and successful auxiliary queries. -/
def stateErrEnvW : TallyEnv :=
  ⟨true, .error (), .ok [], some "0xbb", .ok 3, .ok []⟩

/-- C3 witness: the amended statement evaluated at a concrete environment. -/
theorem state_query_failure_yields_zero_tally_witness :
    getProposalVoteTotals stateErrEnvW = zeroTallyNoPct :=
  state_query_failure_yields_zero_tally stateErrEnvW rfl rfl

/-! ### Claim C4 -/

/-- Concrete environment in which the logs and the direct authoritative
query disagree about the connected account: the logs say (For, 100), the
direct query says weight 50 with latest own event (Against, 50). -/
def directQueryDisagreeEnv : TallyEnv :=
  ⟨true, .ok 0, .ok [⟨"0xAA", 1, 100⟩], some "0xaa", .ok 50, .ok [⟨"0xaa", 0, 50⟩]⟩

/-- C4 counterexample: with logs saying (For, 100) and the direct
authoritative query saying (Against, 50) for the same voter, the
reconstructed tally keeps the log values (yes = 100, no = 0): the logs win,
not the authoritative direct query as the claim states. -/
theorem direct_query_ignored_when_voter_in_logs_cex :
    (getProposalVoteTotals directQueryDisagreeEnv).yesVotes = 100
    ∧ (getProposalVoteTotals directQueryDisagreeEnv).noVotes = 0
    ∧ (getProposalVoteTotals directQueryDisagreeEnv).totalVoters = 1 := by
  decide

/-- C4 (amended): whenever the connected account already appears in the
fetched vote-cast logs, the reconstructed tally equals the log-derived
tally — the direct authoritative per-account query is ignored; it is folded
in only when the account is absent from the logs. -/
theorem logs_win_over_direct_query (env : TallyEnv) (logs : List VoteCastEvent)
    (acct : String) (s : Nat)
    (hg : env.governanceAvailable = true) (hs : env.getProposalState = .ok s)
    (hl : env.getLogs = .ok logs) (ha : env.account = some acct)
    (hmem : lowerStr acct ∈ (processVoteLogs logs).voters) :
    (getProposalVoteTotals env).yesVotes = (processVoteLogs logs).yesVotes
    ∧ (getProposalVoteTotals env).noVotes = (processVoteLogs logs).noVotes
    ∧ (getProposalVoteTotals env).abstainVotes = (processVoteLogs logs).abstainVotes
    ∧ (getProposalVoteTotals env).totalVoters = (processVoteLogs logs).voters.length := by
  unfold getProposalVoteTotals
  simp [hg, hs, hl, ha, applyAccountVote_mem _ _ _ _ hmem]

/-- C4 witness: the amended statement evaluated at the concrete disagreeing
environment. -/
theorem logs_win_over_direct_query_witness :
    (getProposalVoteTotals directQueryDisagreeEnv).totalVoters
      = (processVoteLogs [⟨"0xAA", 1, 100⟩]).voters.length :=
  (logs_win_over_direct_query directQueryDisagreeEnv [⟨"0xAA", 1, 100⟩] "0xaa" 0
    rfl rfl rfl rfl (by decide)).2.2.2

/-! ### Claim C10 -/

/-- C10: voter deduplication is case-insensitive: two events whose voter
addresses differ only in letter case are counted as one distinct voter, and
every entry of the voter set is the lowercase image of some event's voter
address. -/
theorem voter_dedup_case_insensitive (e1 e2 : VoteCastEvent)
    (h : lowerStr e1.voter = lowerStr e2.voter) :
    (processVoteLogs [e1, e2]).voters.length = 1
    ∧ ∀ (logs : List VoteCastEvent) (v : String),
        v ∈ (processVoteLogs logs).voters → ∃ e ∈ logs, v = lowerStr e.voter := by
  constructor
  · have hv : (processVoteLogs [e1, e2]).voters
        = addVoter (addVoter [] (lowerStr e1.voter)) (lowerStr e2.voter) := by
      show (processVoteLog (processVoteLog ⟨0, 0, 0, []⟩ e1) e2).voters = _
      rw [processVoteLog_voters, processVoteLog_voters]
    rw [hv, ← h]
    simp [addVoter]
  · intro logs v hv
    obtain ⟨hn, hf⟩ := foldl_voters_spec logs ⟨0, 0, 0, []⟩ (by simp)
    have hm : v ∈ (processVoteLogs logs).voters.toFinset := List.mem_toFinset.mpr hv
    unfold processVoteLogs at hm
    rw [hf] at hm
    simp at hm
    obtain ⟨e, he, hev⟩ := hm
    exact ⟨e, he, hev.symm⟩

/-- C10 witness: two events whose addresses differ only in hexadecimal
letter case count as a single voter. -/
theorem voter_dedup_case_insensitive_witness :
    (processVoteLogs [⟨"0xAbC", 1, 7⟩, ⟨"0xaBc", 0, 3⟩]).voters.length = 1 :=
  (voter_dedup_case_insensitive ⟨"0xAbC", 1, 7⟩ ⟨"0xaBc", 0, 3⟩ (by decide)).1

/-! ### Claim C5 -/

/-- Concrete environment whose state query fails: the returned tally has
total weight zero and its percentage fields are absent. -/
def stateErrPctEnv : TallyEnv :=
  ⟨true, .error (), .ok [], none, .error (), .error ()⟩

/-- C5 counterexample: the early return taken when the proposal-state query
fails produces a tally with totalVotes = 0 whose three percentage fields are
absent (undefined in the source object), not equal to 0 as the claim
states. -/
theorem zero_total_percentages_undefined_cex :
    (getProposalVoteTotals stateErrPctEnv).totalVotes = 0
    ∧ ¬ (getProposalVoteTotals stateErrPctEnv).yesPercentage = some 0
    ∧ ¬ (getProposalVoteTotals stateErrPctEnv).noPercentage = some 0
    ∧ ¬ (getProposalVoteTotals stateErrPctEnv).abstainPercentage = some 0 := by
  decide

/-- C5 (amended): whenever a returned tally has positive total weight its
three percentage fields are present and sum to exactly 100 over exact
rational arithmetic; when the total weight is zero each percentage field is
either 0 (percentage-computing paths) or absent (the two early exits, which
return objects without percentage fields); `calculateVotePercentages` always
returns all fields, summing to 100 for positive totals and all-zero for zero
totals. -/
theorem percentages_sum_or_default :
    (∀ env : TallyEnv,
      (0 < (getProposalVoteTotals env).totalVotes →
        ∃ py pn pa : ℚ,
          (getProposalVoteTotals env).yesPercentage = some py
          ∧ (getProposalVoteTotals env).noPercentage = some pn
          ∧ (getProposalVoteTotals env).abstainPercentage = some pa
          ∧ py + pn + pa = 100)
      ∧ ((getProposalVoteTotals env).totalVotes = 0 →
          ((getProposalVoteTotals env).yesPercentage = none
            ∨ (getProposalVoteTotals env).yesPercentage = some 0)
          ∧ ((getProposalVoteTotals env).noPercentage = none
            ∨ (getProposalVoteTotals env).noPercentage = some 0)
          ∧ ((getProposalVoteTotals env).abstainPercentage = none
            ∨ (getProposalVoteTotals env).abstainPercentage = some 0)))
    ∧ (∀ ry rn ra : Option ℚ,
      (0 < (calculateVotePercentages ry rn ra).totalVotes →
        (calculateVotePercentages ry rn ra).yesPercentage
          + (calculateVotePercentages ry rn ra).noPercentage
          + (calculateVotePercentages ry rn ra).abstainPercentage = 100)
      ∧ ((calculateVotePercentages ry rn ra).totalVotes = 0 →
        (calculateVotePercentages ry rn ra).yesPercentage = 0
        ∧ (calculateVotePercentages ry rn ra).noPercentage = 0
        ∧ (calculateVotePercentages ry rn ra).abstainPercentage = 0)) := by
  constructor
  · intro env
    obtain ⟨g, st, lg, acct, vi, ue⟩ := env
    cases g with
    | false => simp [getProposalVoteTotals, zeroTallyNoPct]
    | true =>
      cases st with
      | error e => simp [getProposalVoteTotals, zeroTallyNoPct]
      | ok s =>
        cases lg with
        | error e => simp [getProposalVoteTotals, zeroTallyFull]
        | ok logs =>
          set a := applyAccountVote (processVoteLogs logs) acct vi ue with ha
          have hred : getProposalVoteTotals ⟨true, .ok s, .ok logs, acct, vi, ue⟩ =
              ⟨a.yesVotes, a.noVotes, a.abstainVotes,
               a.yesVotes + a.noVotes + a.abstainVotes, a.voters.length,
               some (if 0 < a.yesVotes + a.noVotes + a.abstainVotes then
                 (a.yesVotes : ℚ) / ((a.yesVotes + a.noVotes + a.abstainVotes : Nat) : ℚ) * 100
                 else 0),
               some (if 0 < a.yesVotes + a.noVotes + a.abstainVotes then
                 (a.noVotes : ℚ) / ((a.yesVotes + a.noVotes + a.abstainVotes : Nat) : ℚ) * 100
                 else 0),
               some (if 0 < a.yesVotes + a.noVotes + a.abstainVotes then
                 (a.abstainVotes : ℚ) / ((a.yesVotes + a.noVotes + a.abstainVotes : Nat) : ℚ) * 100
                 else 0)⟩ := rfl
          rw [hred]
          dsimp only
          by_cases hT : 0 < a.yesVotes + a.noVotes + a.abstainVotes
          · refine ⟨fun _ => ⟨_, _, _, rfl, rfl, rfl, ?_⟩, fun h0 => by omega⟩
            rw [if_pos hT, if_pos hT, if_pos hT]
            have hq0 : ((a.yesVotes + a.noVotes + a.abstainVotes : Nat) : ℚ) ≠ 0 := by
              exact_mod_cast Nat.pos_iff_ne_zero.mp hT
            push_cast at hq0 ⊢
            field_simp
            ring
          · refine ⟨fun hpos => absurd hpos hT, fun _ => ?_⟩
            rw [if_neg hT, if_neg hT, if_neg hT]
            exact ⟨Or.inr rfl, Or.inr rfl, Or.inr rfl⟩
  · intro ry rn ra
    have hred : calculateVotePercentages ry rn ra =
        ⟨ry.getD 0, rn.getD 0, ra.getD 0, ry.getD 0 + rn.getD 0 + ra.getD 0,
         if 0 < ry.getD 0 + rn.getD 0 + ra.getD 0 then
           ry.getD 0 / (ry.getD 0 + rn.getD 0 + ra.getD 0) * 100 else 0,
         if 0 < ry.getD 0 + rn.getD 0 + ra.getD 0 then
           rn.getD 0 / (ry.getD 0 + rn.getD 0 + ra.getD 0) * 100 else 0,
         if 0 < ry.getD 0 + rn.getD 0 + ra.getD 0 then
           ra.getD 0 / (ry.getD 0 + rn.getD 0 + ra.getD 0) * 100 else 0⟩ := rfl
    rw [hred]
    dsimp only
    by_cases hT : 0 < ry.getD 0 + rn.getD 0 + ra.getD 0
    · refine ⟨fun _ => ?_, fun h0 => absurd (h0 ▸ hT) (lt_irrefl 0)⟩
      rw [if_pos hT, if_pos hT, if_pos hT]
      have hq : ry.getD 0 + rn.getD 0 + ra.getD 0 ≠ 0 := ne_of_gt hT
      field_simp
      ring
    · refine ⟨fun hpos => absurd hpos hT, fun _ => ?_⟩
      rw [if_neg hT, if_neg hT, if_neg hT]
      exact ⟨rfl, rfl, rfl⟩

/-- C5 witness: the percentage-computing display path evaluated at concrete
vote counts 30 / 50 / 20 sums to exactly 100. -/
theorem percentages_sum_witness :
    (calculateVotePercentages (some 30) (some 50) (some 20)).yesPercentage
      + (calculateVotePercentages (some 30) (some 50) (some 20)).noPercentage
      + (calculateVotePercentages (some 30) (some 50) (some 20)).abstainPercentage = 100 :=
  (percentages_sum_or_default.2 (some 30) (some 50) (some 20)).1
    (by norm_num [calculateVotePercentages])

/-! ### Claim C6 -/

/-- C6: every local validation failure of `castVote` — invalid support
choice, proposal not Active, caller already voted, zero resolved voting
power — surfaces the corresponding error with no vote transaction ever
submitted to the ledger (the ledger write flag stays false). -/
theorem castVote_validation_blocks_ledger_write (env : CastVoteEnv) (vt : Int)
    (hc : env.isConnected = true) (hr : env.contractsReady = true)
    (hgov : env.governanceAvailable = true) :
    (¬ (vt = VOTE_AGAINST ∨ vt = VOTE_FOR ∨ vt = VOTE_ABSTAIN) →
      castVote env vt = ⟨.error .invalidVoteType, false⟩)
    ∧ (∀ s : Nat, env.proposalState = .ok s → s ≠ 0 →
        (vt = VOTE_AGAINST ∨ vt = VOTE_FOR ∨ vt = VOTE_ABSTAIN) →
        castVote env vt = ⟨.error .proposalNotActive, false⟩)
    ∧ (env.proposalState = .ok 0 →
        (vt = VOTE_AGAINST ∨ vt = VOTE_FOR ∨ vt = VOTE_ABSTAIN) →
        hasVotedQuery env.isConnected env.contractsReady env.account
          env.governanceAvailable env.proposalVoterInfo = true →
        castVote env vt = ⟨.error .alreadyVoted, false⟩)
    ∧ (env.proposalState = .ok 0 →
        (vt = VOTE_AGAINST ∨ vt = VOTE_FOR ∨ vt = VOTE_ABSTAIN) →
        hasVotedQuery env.isConnected env.contractsReady env.account
          env.governanceAvailable env.proposalVoterInfo = false →
        env.effectiveVotingPower = .ok 0 →
        castVote env vt = ⟨.error .noVotingPower, false⟩) := by
  refine ⟨?_, ?_, ?_, ?_⟩
  · intro hvt
    unfold castVote
    simp [hc, hr, hgov, hvt]
  · intro s hs hs0 hvt
    unfold castVote
    simp [hc, hr, hgov, hvt, hs, hs0]
  · intro hs hvt hvoted
    unfold castVote
    rw [hc, hr, hgov] at hvoted
    simp [hc, hr, hgov, hvt, hs, hvoted]
  · intro hs hvt hvoted hp
    unfold castVote
    rw [hc, hr, hgov] at hvoted
    simp [hc, hr, hgov, hvt, hs, hvoted, hp]

/-- Concrete `castVote` environment: connected, active proposal, no previous
vote, positive voting power, submission would succeed. -/
def castEnvInvalid : CastVoteEnv :=
  ⟨true, true, true, some "0xcc", .ok 0, .ok 0, 1, .ok 5, .ok "0xhash"⟩

/-- Concrete `castVote` environment identical to `castEnvInvalid` except the
resolved voting power is zero. -/
def castEnvNoPower : CastVoteEnv :=
  ⟨true, true, true, some "0xcc", .ok 0, .ok 0, 1, .ok 0, .ok "0xhash"⟩

/-- C6 witness: an invalid support choice 7 and a zero voting power each
fail with the corresponding error and no ledger write. -/
theorem castVote_validation_witness :
    castVote castEnvInvalid 7 = ⟨.error .invalidVoteType, false⟩
    ∧ castVote castEnvNoPower 1 = ⟨.error .noVotingPower, false⟩ :=
  ⟨(castVote_validation_blocks_ledger_write castEnvInvalid 7 rfl rfl rfl).1 (by decide),
   (castVote_validation_blocks_ledger_write castEnvNoPower 1 rfl rfl rfl).2.2.2
     rfl (by decide) (by decide) rfl⟩

/-! ### Claim C7 -/

/-- C7: `submitVote` writes the speculative local record (PendingLocal) as
its first step, strictly before the `castVote` call that reaches for the
ledger; the record maps the proposal to the chosen support; on a failed
submission the final local map has no record for the proposal (back to
Unvoted), and on success the speculative record stays. -/
theorem submitVote_optimistic_then_rollback (voted : List (Nat × Nat)) (pid sup : Nat)
    (res : Except String Unit) :
    (submitVote voted pid sup res).1.take 2
      = [UIEvent.setState (insertVote voted pid sup), UIEvent.castVoteCall pid sup]
    ∧ lookupVote (insertVote voted pid sup) pid = some sup
    ∧ (∀ e : String, res = .error e →
        lookupVote (submitVote voted pid sup res).2 pid = none)
    ∧ (res = .ok () → (submitVote voted pid sup res).2 = insertVote voted pid sup) := by
  refine ⟨?_, lookupVote_insert pid sup voted, ?_, ?_⟩
  · cases res with
    | ok u => rfl
    | error e => rfl
  · intro e he
    cases res with
    | ok u => simp at he
    | error e2 => exact lookupVote_erase voted pid
  · intro hok
    cases res with
    | ok u => rfl
    | error e2 => simp at hok

/-- C7 witness: a failed submission leaves no record for the proposal. -/
theorem submitVote_optimistic_witness :
    lookupVote (submitVote [(3, 1)] 7 2 (Except.error "revert")).2 7 = none :=
  (submitVote_optimistic_then_rollback [(3, 1)] 7 2 (Except.error "revert")).2.2.1
    "revert" rfl

/-! ### Claim C8 -/

/-- C8: the four read-path queries never propagate an upstream error: a
failed log fetch yields the zero tally, a failed voting-power query yields
the string "0", a failed has-voted query yields false, and a failed
vote-detail query yields the has-not-voted record. -/
theorem read_path_defaults_on_error :
    (∀ (env : TallyEnv) (s : Nat), env.governanceAvailable = true →
      env.getProposalState = .ok s → env.getLogs = .error () →
      getProposalVoteTotals env = zeroTallyFull)
    ∧ (∀ (env : VotingPowerEnv) (fmt : Nat → String) (sid : Option Nat),
      env.effectiveVotingPower = .error () → getVotingPower env fmt sid = "0")
    ∧ (∀ (ic cr gov : Bool) (acct : Option String),
      hasVotedQuery ic cr acct gov (.error ()) = false)
    ∧ (∀ (env : VoteDetailsEnv) (fmt : Nat → String),
      env.proposalVoterInfo = .error () → getVoteDetails env fmt = ⟨false, "0", none⟩) := by
  refine ⟨?_, ?_, ?_, ?_⟩
  · intro env s hg hs hl
    unfold getProposalVoteTotals
    simp [hg, hs, hl]
  · intro env fmt sid hp
    cases sid with
    | none =>
      cases hcs : env.currentSnapshotId with
      | error e => simp [getVotingPower, hp, hcs]
      | ok v => simp [getVotingPower, hp, hcs]
    | some s =>
      by_cases hs0 : s = 0
      · subst hs0
        cases hcs : env.currentSnapshotId with
        | error e => simp [getVotingPower, hp, hcs]
        | ok v => simp [getVotingPower, hp, hcs]
      · simp [getVotingPower, hp, hs0]
  · intro ic cr gov acct
    simp [hasVotedQuery]
  · intro env fmt hp
    simp [getVoteDetails, hp]

/-- Concrete tally environment whose log fetch fails. -/
def logsErrEnv : TallyEnv := ⟨true, .ok 0, .error (), none, .error (), .error ()⟩

/-- Concrete voting-power environment whose power query fails. -/
def powerErrEnv : VotingPowerEnv := ⟨true, true, some "0xdd", true, .ok 2, .error ()⟩

/-- Concrete vote-details environment whose voter-info query fails. -/
def detailsErrEnv : VoteDetailsEnv := ⟨true, true, some "0xdd", .error (), .ok []⟩

/-- C8 witness: each read path evaluated at a concrete failing
environment returns its documented default. -/
theorem read_path_defaults_witness :
    getProposalVoteTotals logsErrEnv = zeroTallyFull
    ∧ getVotingPower powerErrEnv (fun n => toString n) (some 5) = "0"
    ∧ hasVotedQuery true true (some "0xdd") true (.error ()) = false
    ∧ getVoteDetails detailsErrEnv (fun n => toString n) = ⟨false, "0", none⟩ :=
  ⟨read_path_defaults_on_error.1 logsErrEnv 0 rfl rfl rfl,
   read_path_defaults_on_error.2.1 powerErrEnv (fun n => toString n) (some 5) rfl,
   read_path_defaults_on_error.2.2.1 true true true (some "0xdd"),
   read_path_defaults_on_error.2.2.2 detailsErrEnv (fun n => toString n) rfl⟩

/-! ### Claim C9 -/

/-- C9: the three returned governance rates always lie strictly above 1/100
and at most 1, and any strategy result outside that range is replaced by the
seeded defaults 0.27, 0.38 and 0.73 respectively. -/
theorem governance_metrics_clamped (env : MetricsEnv) :
    (1 / 100 < (fetchGovernanceMetrics env).1 ∧ (fetchGovernanceMetrics env).1 ≤ 1)
    ∧ (1 / 100 < (fetchGovernanceMetrics env).2.1 ∧ (fetchGovernanceMetrics env).2.1 ≤ 1)
    ∧ (1 / 100 < (fetchGovernanceMetrics env).2.2 ∧ (fetchGovernanceMetrics env).2.2 ≤ 1)
    ∧ ((rawGovernanceMetrics env).1 ≤ 1 / 100 ∨ 1 < (rawGovernanceMetrics env).1 →
        (fetchGovernanceMetrics env).1 = 27 / 100)
    ∧ ((rawGovernanceMetrics env).2.1 ≤ 1 / 100 ∨ 1 < (rawGovernanceMetrics env).2.1 →
        (fetchGovernanceMetrics env).2.1 = 38 / 100)
    ∧ ((rawGovernanceMetrics env).2.2 ≤ 1 / 100 ∨ 1 < (rawGovernanceMetrics env).2.2 →
        (fetchGovernanceMetrics env).2.2 = 73 / 100) := by
  have h1 : (fetchGovernanceMetrics env).1
      = clampRate (27 / 100) (rawGovernanceMetrics env).1 := rfl
  have h2 : (fetchGovernanceMetrics env).2.1
      = clampRate (38 / 100) (rawGovernanceMetrics env).2.1 := rfl
  have h3 : (fetchGovernanceMetrics env).2.2
      = clampRate (73 / 100) (rawGovernanceMetrics env).2.2 := rfl
  rw [h1, h2, h3]
  exact ⟨clampRate_bounds _ _ (by norm_num) (by norm_num),
    clampRate_bounds _ _ (by norm_num) (by norm_num),
    clampRate_bounds _ _ (by norm_num) (by norm_num),
    clampRate_replace _ _, clampRate_replace _ _, clampRate_replace _ _⟩

/-- Concrete metrics environment with implausible upstream values: zero
turnout and success rate, delegation of 2000% in basis points. -/
def implausibleMetricsEnv : MetricsEnv :=
  ⟨true, .ok (some ⟨some 0, some 0⟩), .ok (some ⟨some 200000⟩), .error (), .error ()⟩

/-- C9 witness: the implausible upstream values 0, 20 and 0 are all replaced
by the seeded defaults. -/
theorem governance_metrics_clamped_witness :
    (fetchGovernanceMetrics implausibleMetricsEnv).1 = 27 / 100
    ∧ (fetchGovernanceMetrics implausibleMetricsEnv).2.1 = 38 / 100
    ∧ (fetchGovernanceMetrics implausibleMetricsEnv).2.2 = 73 / 100 := by
  have hraw : rawGovernanceMetrics implausibleMetricsEnv = (0, 20, 0) := by
    norm_num [rawGovernanceMetrics, implausibleMetricsEnv]
  exact ⟨(governance_metrics_clamped implausibleMetricsEnv).2.2.2.1 (by rw [hraw]; norm_num),
    (governance_metrics_clamped implausibleMetricsEnv).2.2.2.2.1 (by rw [hraw]; norm_num),
    (governance_metrics_clamped implausibleMetricsEnv).2.2.2.2.2 (by rw [hraw]; norm_num)⟩

end JustDAO
